import Mathlib

/-!
Shallow embedding of `substrate/client/transaction-pool/api/src/error.rs`:
the transaction-pool error taxonomy, its retriability classification
(`Error::is_retriable`), the per-variant display strings declared by the
`#[error(...)]` attributes, and the `IntoPoolError` conversion contract.
-/

/-- Modelled from the spec: the opaque validity-unknown code carried by
`UnknownTransaction` comes from the runtime crate, outside this module.
The taxonomy only debug-formats it (`{0:?}`), so it is represented here by
its debug rendering. -/
structure UnknownTransaction where
  debugRepr : String

/-- Modelled from the spec: the opaque validity-invalid code carried by
`InvalidTransaction` comes from the runtime crate, outside this module.
The taxonomy only debug-formats it (`{0:?}`), so it is represented here by
its debug rendering. -/
structure InvalidTransaction where
  debugRepr : String

/-- `TransactionPriority` is a `u64` alias in the runtime crate.  This
module performs no arithmetic on priorities, only storage and decimal
display, so it is embedded as `Nat`. -/
abbrev Priority := Nat

/-- The transaction pool `Error` enum.  The payload of `AlreadyImported`
is a `Box<dyn Any + Send + Sync>` in the source, i.e. a value of an
arbitrary caller-chosen type; the embedding is parametric in that payload
type `A`. -/
inductive Error (A : Type) where
  | UnknownTransaction (u : UnknownTransaction)
  | InvalidTransaction (i : InvalidTransaction)
  | NoTagsProvided
  | TemporarilyBanned
  | AlreadyImported (a : A)
  | TooLowPriority (old : Priority) (new : Priority)
  | CycleDetected
  | ImmediatelyDropped
  | Unactionable
  | InvalidBlockId (s : String)
  | RejectedFutureTransaction

/-- `Error::is_retriable`: true exactly on the four variants listed in the
source match arm, false on everything else (the wildcard arm). -/
def Error.is_retriable {A : Type} : Error A → Bool
  | .TemporarilyBanned => true
  | .ImmediatelyDropped => true
  | .InvalidBlockId _ => true
  | .RejectedFutureTransaction => true
  | _ => false

/-- The per-variant display string, read off the `#[error(...)]` attribute
of each variant.  For `AlreadyImported` the payload is debug-formatted as
`Box<dyn Any + Send + Sync>`, whose `Debug` impl in the Rust standard
library is `f.debug_struct("Any").finish_non_exhaustive()` and therefore
prints the constant string `Any { .. }` regardless of contents. -/
def Error.description {A : Type} : Error A → String
  | .UnknownTransaction u => "Unknown transaction validity: " ++ u.debugRepr
  | .InvalidTransaction i => "Invalid transaction validity: " ++ i.debugRepr
  | .NoTagsProvided => "Transaction does not provide any tags, so the pool can\'t identify it"
  | .TemporarilyBanned => "Transaction temporarily Banned"
  | .AlreadyImported _ => "[Any \x7b .. \x7d] Already imported"
  | .TooLowPriority old new => "Too low priority (" ++ toString old ++ " > " ++ toString new ++ ")"
  | .CycleDetected => "Transaction with cyclic dependency"
  | .ImmediatelyDropped => "Transaction couldn\'t enter the pool because of the limit"
  | .Unactionable => "Transaction cannot be propagated and the local node does not author blocks"
  | .InvalidBlockId s => s
  | .RejectedFutureTransaction => "The pool is not accepting future transactions"

/-- The default method body of the `IntoPoolError` trait: a type with no
special conversion logic returns `Err(self)`, the original value unchanged.
`Except α (Error A)` mirrors Rust's `Result<Error, Self>`: `.ok` carries
the reinterpreted pool error, `.error` carries the original value back. -/
def into_pool_error_default {α A : Type} (self : α) : Except α (Error A) :=
  .error self

/-- `impl IntoPoolError for Error`: the override returns `Ok(self)`. -/
def Error.into_pool_error {A : Type} (self : Error A) : Except (Error A) (Error A) :=
  .ok self

/-- Claim C1: `is_retriable` returns true if and only if the value is
`TemporarilyBanned`, `ImmediatelyDropped`, `InvalidBlockId` with any string
payload, or `RejectedFutureTransaction`; it returns false on every other
variant, whatever the payload. -/
theorem is_retriable_iff_retriable_variant {A : Type} (e : Error A) :
    e.is_retriable = true ↔
      (e = .TemporarilyBanned ∨ e = .ImmediatelyDropped ∨
        (∃ s, e = .InvalidBlockId s) ∨ e = .RejectedFutureTransaction) := by
  cases e <;> simp [Error.is_retriable]

/-- Claim C2: converting an `Error` through its own `IntoPoolError`
implementation always succeeds and returns the value itself unchanged. -/
theorem into_pool_error_identity {A : Type} (e : Error A) :
    e.into_pool_error = .ok e := by
  rfl

/-- Claim C3: the trait's default `into_pool_error` method always returns
the failure case carrying the original foreign value unchanged, for every
foreign type and every value of it; it never produces a pool `Error`. -/
theorem into_pool_error_default_fails {α A : Type} (x : α) :
    into_pool_error_default (A := A) x = .error x := by
  rfl

/-- Claim C4: `is_retriable` is a total deterministic function: it is
defined on every `Error` value (it always yields one of the two booleans)
and equal inputs give equal outputs. -/
theorem is_retriable_total_deterministic {A : Type} (e₁ e₂ : Error A)
    (h : e₁ = e₂) :
    (e₁.is_retriable = true ∨ e₁.is_retriable = false) ∧
      e₁.is_retriable = e₂.is_retriable := by
  subst h
  exact ⟨Bool.eq_false_or_eq_true _ |>.symm.imp id id |>.elim Or.inr Or.inl, rfl⟩

/-- Witness for C4 at the concrete value `CycleDetected`. -/
theorem is_retriable_total_deterministic_witness :
    ((Error.CycleDetected : Error Unit).is_retriable = true ∨
        (Error.CycleDetected : Error Unit).is_retriable = false) ∧
      (Error.CycleDetected : Error Unit).is_retriable =
        (Error.CycleDetected : Error Unit).is_retriable :=
  is_retriable_total_deterministic Error.CycleDetected Error.CycleDetected rfl

/-- Claim C5: for every string `s`, `InvalidBlockId s` is retriable and
its description is exactly `s`. -/
theorem invalid_block_id_retriable_and_describes (s : String) :
    (Error.InvalidBlockId s : Error Unit).is_retriable = true ∧
      (Error.InvalidBlockId s : Error Unit).description = s :=
  ⟨rfl, rfl⟩

/-- Claim C6: `TooLowPriority { old := 10, new := 5 }` is not retriable and
its description contains both `10` and `5`. -/
theorem too_low_priority_10_5_scenario :
    (Error.TooLowPriority 10 5 : Error Unit).is_retriable = false ∧
      List.IsInfix "10".data (Error.TooLowPriority 10 5 : Error Unit).description.data ∧
      List.IsInfix "5".data (Error.TooLowPriority 10 5 : Error Unit).description.data := by
  refine ⟨rfl, ?_, ?_⟩ <;> decide

/-- Claim C7: every variant's description is a fixed-format message
computed from the variant and its own payload alone; payload-bearing
variants interpolate the payload verbatim: the debug rendering for the
validity payloads, the decimal rendering of `old` and `new` for
`TooLowPriority`, and the literal string for `InvalidBlockId`. -/
theorem description_fixed_format {A : Type} (u : UnknownTransaction)
    (i : InvalidTransaction) (old new : Priority) (s : String) :
    (Error.UnknownTransaction u : Error A).description =
      "Unknown transaction validity: " ++ u.debugRepr ∧
      (Error.InvalidTransaction i : Error A).description =
        "Invalid transaction validity: " ++ i.debugRepr ∧
      (Error.TooLowPriority old new : Error A).description =
        "Too low priority (" ++ toString old ++ " > " ++ toString new ++ ")" ∧
      (Error.InvalidBlockId s : Error A).description = s :=
  ⟨rfl, rfl, rfl, rfl⟩

/-- Claim C8: construction of `TooLowPriority` enforces no ordering between
`old` and `new`: for every pair of priorities, including `old < new`, the
value is constructible, stores exactly the given payloads (the constructor
is injective), and every operation of the taxonomy behaves uniformly:
`is_retriable` is false, the description follows the one fixed format, and
the identity conversion succeeds. -/
theorem too_low_priority_unordered {A : Type} (old new : Priority) :
    ((Error.TooLowPriority old new : Error A) = .TooLowPriority old new) ∧
      (∀ o n : Priority, (Error.TooLowPriority old new : Error A) = .TooLowPriority o n →
        old = o ∧ new = n) ∧
      (Error.TooLowPriority old new : Error A).is_retriable = false ∧
      (Error.TooLowPriority old new : Error A).description =
        "Too low priority (" ++ toString old ++ " > " ++ toString new ++ ")" ∧
      (Error.TooLowPriority old new : Error A).into_pool_error =
        .ok (.TooLowPriority old new) := by
  refine ⟨rfl, ?_, rfl, rfl, rfl⟩
  intro o n h
  cases h
  exact ⟨rfl, rfl⟩

/-- Claim C10 counterexample: the description of `AlreadyImported` is not
the string the claim pins: the standard-library `Debug` for the
type-erased box prints `Any { .. }` (non-exhaustive struct form), not the
bare token `Any`. -/
theorem already_imported_description_not_bare_any :
    (Error.AlreadyImported () : Error Unit).description ≠ "[Any] Already imported" := by
  decide

/-- Claim C10 (amended): the description of `AlreadyImported` is the same
fixed string `[Any { .. }] Already imported` for every payload (the
standard-library debug rendering of the type-erased box is the constant
`Any { .. }`), so any two such values, even of different payload types,
render identically and reveal nothing about the identity token. -/
theorem already_imported_description_uniform {A B : Type} (a : A) (b : B) :
    (Error.AlreadyImported a : Error A).description =
        "[Any \x7b .. \x7d] Already imported" ∧
      (Error.AlreadyImported a : Error A).description =
        (Error.AlreadyImported b : Error B).description :=
  ⟨rfl, rfl⟩
